import Mathlib

/-!
# Verification of the candi task-queue worker dispatch and lifecycle engine

Shallow embedding of `codebase/app/task_queue_worker/task_queue_worker.go`
and the option constructors of the task-queue-worker package, together with
theorems settling the specification claims about task registration, startup
recovery, the dispatch loop, shutdown, and option handling.

Conventions of the embedding:
* Go package-level mutable state (`registeredTask`, `tasks`, `workers`,
  `semaphore`, `runningWorkerIndexTask`, `defaultOption`) becomes explicit
  state records threaded through the functions that mutate them.
* A Go `panic` becomes an `Option String` result component (`some msg` is the
  panic message, `none` is normal return).
* Side-effecting calls into the external collaborators (queue adapter, job
  store, logger, channels) become events recorded in an explicit trace
  (`List Ev`), in the order the Go statements execute them.
-/

namespace TaskQueueWorker

/-- One entry of the Go select-based wait set `workers`
(`[]reflect.SelectCase`).  Index 0 of the wait set is the administrative
refresh channel (`Serve` treats `chosen == 0` as "notify for refresh worker"
and performs no task work for it); every task registration appends one
further receive case. -/
inductive SelectSource
  | refresh
  | taskSlot
  deriving DecidableEq, Repr

/-- The value stored in the `registeredTask` map for one task name: the
anonymous struct `{handler; workerIndex; moduleName}` of
`task_queue_worker.go` lines 46-52 (the handler function itself carries no
information the claims inspect, so only `workerIndex` and `moduleName` are
kept). -/
structure RegEntry where
  workerIndex : Nat
  moduleName : String
  deriving DecidableEq, Repr

/-- The package-level registry state mutated by `NewTaskQueueWorker`:
`registeredTask` (a map, embedded as an association list in insertion
order), `runningWorkerIndexTask`, `tasks`, `workers` and `semaphore`.
`semaphore` keeps only the capacity of each buffered channel
(`make(chan struct{}, 1)` contributes the number 1). -/
structure WorkerState where
  registeredTask : List (String × RegEntry)
  runningWorkerIndexTask : List (Nat × String)
  tasks : List String
  workers : List SelectSource
  semaphore : List Nat
  deriving DecidableEq, Repr

/-- Membership test of the `registeredTask` map
(`if _, ok := registeredTask[handler.Pattern]; ok`). -/
def hasTask (s : WorkerState) (pattern : String) : Bool :=
  s.registeredTask.any (fun p => p.1 = pattern)

/-- Modelled from the spec: the initial package state produced by
`makeAllGlobalVars` (not under `src/`).  The spec's Dispatch Loop waits
across "all registered tasks' wake signals simultaneously plus one
administrative refresh signal", and `Serve` (which is in `src/`) reads the
wait-set index 0 as that refresh source (`if chosen == 0 { continue }`), so
the initial wait set holds exactly the refresh entry at index 0 and all
other registry tables are empty. -/
def initialState : WorkerState :=
  { registeredTask := []
    runningWorkerIndexTask := []
    tasks := []
    workers := [SelectSource.refresh]
    semaphore := [] }

/-- The body of the per-handler registration loop of `NewTaskQueueWorker`
(`task_queue_worker.go` lines 40-61): panic on a duplicate pattern,
otherwise take `workerIndex := len(workers)` and append one entry to each
of `registeredTask`, `runningWorkerIndexTask`, `tasks`, `workers` and
`semaphore` (the admission channel is created with capacity 1). -/
def registerHandler (moduleName pattern : String) (s : WorkerState) :
    WorkerState × Option String :=
  if hasTask s pattern then
    (s, some ("Task Queue Worker: task " ++ pattern ++ " has been registered"))
  else
    let workerIndex := s.workers.length
    ({ registeredTask :=
         s.registeredTask ++ [(pattern, ⟨workerIndex, moduleName⟩)]
       runningWorkerIndexTask :=
         s.runningWorkerIndexTask ++ [(workerIndex, pattern)]
       tasks := s.tasks ++ [pattern]
       workers := s.workers ++ [SelectSource.taskSlot]
       semaphore := s.semaphore ++ [1] }, none)

/-- The registration loop over a module's handler patterns, stopping at the
first panic exactly as the Go `for _, handler := range handlerGroup.Handlers`
loop would. -/
def registerAll (moduleName : String) (patterns : List String)
    (s : WorkerState) : WorkerState × Option String :=
  match patterns with
  | [] => (s, none)
  | p :: rest =>
    match registerHandler moduleName p s with
    | (s1, some msg) => (s1, some msg)
    | (s1, none) => registerAll moduleName rest s1

/-- The registry produced by a full `NewTaskQueueWorker` run for one module
with the given handler patterns, starting from the freshly initialised
package state.  The options argument mirrors the `opts ...OptionFunc`
parameter: `makeAllGlobalVars(opts...)` folds it into `defaultOption`, and
the registration loop never consults it (in particular the admission
channel capacity at line 58 is the literal 1). -/
def newTaskQueueWorkerReg (m : String) (patterns : List String) :
    WorkerState × Option String :=
  registerAll m patterns initialState

/-- Expected contents of `registeredTask` after registering `patterns` in
order when the wait set already holds `base` entries: the i-th pattern is
mapped to worker index `base + i`. -/
def registryFrom (m : String) (base : Nat) : List String → List (String × RegEntry)
  | [] => []
  | p :: rest => (p, ⟨base, m⟩) :: registryFrom m (base + 1) rest

/-- Expected contents of `runningWorkerIndexTask` after registering
`patterns` in order starting at worker index `base`. -/
def runningFrom (base : Nat) : List String → List (Nat × String)
  | [] => []
  | p :: rest => (base, p) :: runningFrom (base + 1) rest

theorem hasTask_registerHandler_ok (m p q : String) (s s1 : WorkerState)
    (h : registerHandler m p s = (s1, none)) :
    hasTask s1 q = (hasTask s q || decide (p = q)) := by
  unfold registerHandler at h
  by_cases hdup : hasTask s p
  · simp [hdup] at h
  · simp [hdup] at h
    subst h
    simp [hasTask, List.any_append, eq_comm]

/-- Full characterisation of a successful registration run: with all
patterns fresh and mutually distinct, every table receives exactly one
entry per pattern, in registration order, with worker indices counting up
from the current wait-set length. -/
theorem registerAll_spec (m : String) (patterns : List String) :
    ∀ s : WorkerState, (∀ p ∈ patterns, hasTask s p = false) → patterns.Nodup →
    registerAll m patterns s =
      ({ registeredTask :=
           s.registeredTask ++ registryFrom m s.workers.length patterns
         runningWorkerIndexTask :=
           s.runningWorkerIndexTask ++ runningFrom s.workers.length patterns
         tasks := s.tasks ++ patterns
         workers := s.workers ++ List.replicate patterns.length SelectSource.taskSlot
         semaphore := s.semaphore ++ List.replicate patterns.length 1 }, none) := by
  induction patterns with
  | nil =>
    intro s _ _
    simp [registerAll, registryFrom, runningFrom]
  | cons p rest ih =>
    intro s hfresh hnd
    have hp : hasTask s p = false := hfresh p (List.mem_cons_self _ _)
    have hstep : registerHandler m p s =
        ({ registeredTask := s.registeredTask ++ [(p, ⟨s.workers.length, m⟩)]
           runningWorkerIndexTask :=
             s.runningWorkerIndexTask ++ [(s.workers.length, p)]
           tasks := s.tasks ++ [p]
           workers := s.workers ++ [SelectSource.taskSlot]
           semaphore := s.semaphore ++ [1] }, none) := by
      unfold registerHandler
      simp [hp]
    have hnd1 : rest.Nodup := hnd.of_cons
    have hpnot : p ∉ rest := (List.nodup_cons.mp hnd).1
    have hfresh1 : ∀ q ∈ rest, hasTask
        ({ registeredTask := s.registeredTask ++ [(p, ⟨s.workers.length, m⟩)]
           runningWorkerIndexTask :=
             s.runningWorkerIndexTask ++ [(s.workers.length, p)]
           tasks := s.tasks ++ [p]
           workers := s.workers ++ [SelectSource.taskSlot]
           semaphore := s.semaphore ++ [1] } : WorkerState) q = false := by
      intro q hq
      have := hasTask_registerHandler_ok m p q s _ hstep
      rw [this]
      have h1 : hasTask s q = false := hfresh q (List.mem_cons_of_mem _ hq)
      have h2 : p ≠ q := fun hpq => hpnot (hpq ▸ hq)
      simp [h1, h2]
    rw [registerAll, hstep]
    dsimp only
    rw [ih _ hfresh1 hnd1]
    simp [registryFrom, runningFrom, List.replicate_succ]

theorem registryFrom_map_fst (m : String) (ps : List String) :
    ∀ b, (registryFrom m b ps).map Prod.fst = ps := by
  induction ps with
  | nil => intro b; simp [registryFrom]
  | cons p rest ih => intro b; simp [registryFrom, ih]

theorem registryFrom_map_workerIndex (m : String) (ps : List String) :
    ∀ b, (registryFrom m b ps).map (fun e => e.2.workerIndex) =
      List.range' b ps.length := by
  induction ps with
  | nil => intro b; simp [registryFrom]
  | cons p rest ih => intro b; simp [registryFrom, ih, List.range'_succ]

theorem mem_semaphore_registerAll (m : String) (ps : List String) :
    ∀ (s : WorkerState) (c : Nat),
      c ∈ (registerAll m ps s).1.semaphore → c ∈ s.semaphore ∨ c = 1 := by
  induction ps with
  | nil => intro s c hc; exact Or.inl hc
  | cons p rest ih =>
    intro s c hc
    rw [registerAll] at hc
    unfold registerHandler at hc
    by_cases hdup : hasTask s p
    · simp [hdup] at hc
      exact Or.inl hc
    · simp [hdup] at hc
      rcases ih _ c hc with h | h
      · rcases List.mem_append.mp h with h1 | h1
        · exact Or.inl h1
        · simp at h1
          exact Or.inr h1
      · exact Or.inr h

/-- Claim C1, counterexample: registering a single task `"a"` from the
fresh package state assigns it worker index 1, not 0 — index 0 of the wait
set is the administrative refresh source, so the assignment is not
zero-based on the tasks. -/
theorem registration_slot_zero_based_cex :
    (newTaskQueueWorkerReg "m" ["a"]).1.registeredTask
      = [("a", ⟨1, "m"⟩)] ∧
    ¬ (newTaskQueueWorkerReg "m" ["a"]).1.registeredTask.map
        (fun e => e.2.workerIndex) = [0] := by
  constructor
  · rfl
  · decide

/-- Claim C1 (amended): for every duplicate-free registration sequence,
registration succeeds and the slot assignment is dense and follows
registration order starting at index 1: the i-th task registered receives
dispatch slot index i+1 (slot 0 is the administrative refresh source), and
exactly one dispatch-wait slot and one admission-set entry are allocated
per task, in that same order. -/
theorem registration_slot_assignment (m : String) (ps : List String)
    (hnd : ps.Nodup) :
    (newTaskQueueWorkerReg m ps).2 = none ∧
    (newTaskQueueWorkerReg m ps).1.tasks = ps ∧
    (newTaskQueueWorkerReg m ps).1.registeredTask.map Prod.fst = ps ∧
    (newTaskQueueWorkerReg m ps).1.registeredTask.map
        (fun e => e.2.workerIndex) = List.range' 1 ps.length ∧
    (newTaskQueueWorkerReg m ps).1.workers
      = SelectSource.refresh :: List.replicate ps.length SelectSource.taskSlot ∧
    (newTaskQueueWorkerReg m ps).1.semaphore = List.replicate ps.length 1 := by
  have hfresh : ∀ p ∈ ps, hasTask initialState p = false := by
    intro p _
    rfl
  unfold newTaskQueueWorkerReg
  rw [registerAll_spec m ps initialState hfresh hnd]
  refine ⟨rfl, by simp [initialState], ?_, ?_, by simp [initialState], by simp [initialState]⟩
  · simp [initialState, registryFrom_map_fst]
  · simp [initialState, registryFrom_map_workerIndex]

theorem registration_slot_assignment_witness :
    (["a", "b"] : List String).Nodup ∧
    ((newTaskQueueWorkerReg "m" ["a", "b"]).2 = none ∧
     (newTaskQueueWorkerReg "m" ["a", "b"]).1.tasks = ["a", "b"] ∧
     (newTaskQueueWorkerReg "m" ["a", "b"]).1.registeredTask.map Prod.fst
       = ["a", "b"] ∧
     (newTaskQueueWorkerReg "m" ["a", "b"]).1.registeredTask.map
         (fun e => e.2.workerIndex) = List.range' 1 (["a", "b"] : List String).length ∧
     (newTaskQueueWorkerReg "m" ["a", "b"]).1.workers
       = SelectSource.refresh
           :: List.replicate (["a", "b"] : List String).length SelectSource.taskSlot ∧
     (newTaskQueueWorkerReg "m" ["a", "b"]).1.semaphore
       = List.replicate (["a", "b"] : List String).length 1) :=
  ⟨by decide, registration_slot_assignment "m" ["a", "b"] (by decide)⟩

/-- Claim C3: registering a task whose name is already registered panics
with the duplicate-task message and leaves every registry table
(`registeredTask`, `runningWorkerIndexTask`, `tasks`, `workers`,
`semaphore`) exactly as it was. -/
theorem duplicate_registration_panics (m p : String) (s : WorkerState)
    (h : hasTask s p = true) :
    registerHandler m p s =
      (s, some ("Task Queue Worker: task " ++ p ++ " has been registered")) := by
  unfold registerHandler
  simp [h]

theorem duplicate_registration_panics_witness :
    hasTask (newTaskQueueWorkerReg "m" ["a"]).1 "a" = true ∧
    registerHandler "othermod" "a" (newTaskQueueWorkerReg "m" ["a"]).1 =
      ((newTaskQueueWorkerReg "m" ["a"]).1,
       some ("Task Queue Worker: task " ++ "a" ++ " has been registered")) :=
  ⟨by decide,
   duplicate_registration_panics "othermod" "a"
     (newTaskQueueWorkerReg "m" ["a"]).1 (by decide)⟩

/-- Claim C8, counterexample: the admission-set capacity is not
configurable — there is no registration whatsoever under which some
registered task's admission set has a capacity other than the literal 1
hard-coded at the allocation site (`make(chan struct\x7b\x7d, 1)`). -/
theorem admission_capacity_not_configurable :
    ¬ ∃ (m : String) (ps : List String) (c : Nat),
        c ∈ (newTaskQueueWorkerReg m ps).1.semaphore ∧ c ≠ 1 := by
  rintro ⟨m, ps, c, hc, hne⟩
  rcases mem_semaphore_registerAll m ps initialState c hc with h | h
  · simp [initialState] at h
  · exact hne h

/-- Claim C8 (amended): for every duplicate-free registration sequence,
exactly one bounded admission set is allocated per registered task, in
registration order, and every one of them has fixed capacity 1 (the
maximum is not configurable per task in this code). -/
theorem one_admission_set_per_task (m : String) (ps : List String)
    (hnd : ps.Nodup) :
    (newTaskQueueWorkerReg m ps).1.semaphore = List.replicate ps.length 1 ∧
    (newTaskQueueWorkerReg m ps).1.semaphore.length
      = (newTaskQueueWorkerReg m ps).1.tasks.length := by
  have hfresh : ∀ p ∈ ps, hasTask initialState p = false := by
    intro p _
    rfl
  unfold newTaskQueueWorkerReg
  rw [registerAll_spec m ps initialState hfresh hnd]
  simp [initialState]

theorem one_admission_set_per_task_witness :
    (["a", "b", "c"] : List String).Nodup ∧
    ((newTaskQueueWorkerReg "m" ["a", "b", "c"]).1.semaphore
       = List.replicate (["a", "b", "c"] : List String).length 1 ∧
     (newTaskQueueWorkerReg "m" ["a", "b", "c"]).1.semaphore.length
       = (newTaskQueueWorkerReg "m" ["a", "b", "c"]).1.tasks.length) :=
  ⟨by decide, one_admission_set_per_task "m" ["a", "b", "c"] (by decide)⟩

/-- Job status constant `statusQueueing`; the status enum of the data model
is `queueing | retrying | running | success | failure | stopped` and the
recovery filter selects `retrying` and `queueing`. -/
def statusQueueing : String := "queueing"

/-- Job status constant `statusRetrying`. -/
def statusRetrying : String := "retrying"

/-- One persisted job record, restricted to the fields the recovery
procedure reads: `ID`, `TaskName`, `Status`. -/
structure Job where
  id : String
  taskName : String
  status : String
  deriving DecidableEq, Repr

/-- Result triple of the Job Store update call, `(matched, affected, err)`
with the error component modelled separately by the caller. -/
structure UpdateResult where
  newStore : List Job
  matched : Int
  affected : Int
  deriving DecidableEq, Repr

/-- Modelled from the spec: the Job Store adapter operation
`UpdateJob(filter, fields) -> (matchedCount, affectedCount, error)` (the
`Persistent` implementation is an external collaborator, not under `src/`),
instantiated at the call shape of `prepare`: filter `{JobID: &job.ID}` and
fields `{"status": newStatus}`.  `matched` counts the rows matching the
filter; `affected` counts the rows the update actually changed, which is
what distinguishes the two counts under concurrent writers. -/
def updateJobStatus (store : List Job) (jobID newStatus : String) :
    UpdateResult :=
  { newStore :=
      store.map (fun r => if r.id = jobID then { r with status := newStatus } else r)
    matched := ((store.filter (fun r => r.id = jobID)).length : Int)
    affected :=
      ((store.filter (fun r => r.id = jobID ∧ r.status ≠ newStatus)).length : Int) }

/-- Summary bookkeeping of one iteration of the recovery stream callback
(`task_queue_worker.go` lines 92-106): when the streamed job's status is
not already `queueing`, set it to `queueing` through the Job Store and pass
`{statusBefore: -matched, queueing: affected}` to `IncrementSummary`.
Returns the updated store and the delta list handed to `IncrementSummary`
(empty when the status was already `queueing`). -/
def prepareJobStep (store : List Job) (job : Job) :
    List Job × List (String × Int) :=
  if job.status ≠ statusQueueing then
    let statusBefore := job.status
    let r := updateJobStatus store job.id statusQueueing
    (r.newStore, [(statusBefore, -r.matched), (statusQueueing, r.affected)])
  else
    (store, [])

/-- Store for the C2 counterexample: the single row of job `"j1"` was
already flipped to `queueing` by a concurrent writer. -/
def raceStore : List Job := [⟨"j1", "t", "queueing"⟩]

/-- Streamed snapshot of job `"j1"` as the recovery stream saw it, still
`retrying`. -/
def raceJob : Job := ⟨"j1", "t", "retrying"⟩

/-- Claim C2, counterexample: it is false that both summary adjustments use
the affected-row count.  At a store whose row was concurrently set to
`queueing` already (`matched = 1`, `affected = 0`), the code decrements the
prior status by the matched count 1, while the claim demands a decrement by
the affected count 0. -/
theorem recovery_decrement_uses_matched_cex :
    ¬ ∀ (store : List Job) (job : Job), job.status ≠ statusQueueing →
        (prepareJobStep store job).2 =
          [(job.status, -(updateJobStatus store job.id statusQueueing).affected),
           (statusQueueing, (updateJobStatus store job.id statusQueueing).affected)] := by
  intro h
  exact absurd (h raceStore raceJob (by decide)) (by decide)

/-- Claim C2 (amended): when the id filter matches exactly one store row,
the prior-status decrement equals the matched-row count (here 1), while the
`queueing` increment equals the affected-row count: 1 when the row actually
changed, and 0 when the row already carried status `queueing`, so the
increment side never double-counts under concurrent writers. -/
theorem recovery_summary_adjustment (store : List Job) (job row : Job)
    (hq : job.status ≠ statusQueueing)
    (hr : store.filter (fun r => r.id = job.id) = [row]) :
    (prepareJobStep store job).2 =
      [(job.status, -1),
       (statusQueueing, if row.status = statusQueueing then 0 else 1)] := by
  unfold prepareJobStep
  rw [if_pos hq]
  unfold updateJobStatus
  dsimp only
  have hpred : (fun r : Job => decide (r.id = job.id ∧ r.status ≠ statusQueueing))
      = fun r : Job =>
          (decide (r.status ≠ statusQueueing) && decide (r.id = job.id)) := by
    funext r
    simp [Bool.and_comm]
  have hm : (store.filter (fun r => r.id = job.id)).length = 1 := by
    rw [hr]
    rfl
  have ha : (store.filter (fun r : Job => r.id = job.id ∧ r.status ≠ statusQueueing)).length
      = if row.status = statusQueueing then 0 else 1 := by
    show (store.filter (fun r : Job => decide (r.id = job.id ∧ r.status ≠ statusQueueing))).length
      = if row.status = statusQueueing then 0 else 1
    rw [hpred, ← List.filter_filter, hr]
    by_cases hrow : row.status = statusQueueing
    · simp [List.filter, hrow]
    · simp [List.filter, hrow]
  rw [hm, ha]
  by_cases hrow : row.status = statusQueueing
  · simp [hrow]
  · simp [hrow]

theorem recovery_summary_adjustment_witness :
    ((⟨"j2", "t", "retrying"⟩ : Job).status ≠ statusQueueing ∧
     ([⟨"j2", "t", "retrying"⟩] : List Job).filter
        (fun r => r.id = (⟨"j2", "t", "retrying"⟩ : Job).id)
       = [⟨"j2", "t", "retrying"⟩]) ∧
    (prepareJobStep [⟨"j2", "t", "retrying"⟩] ⟨"j2", "t", "retrying"⟩).2 =
      [((⟨"j2", "t", "retrying"⟩ : Job).status, -1),
       (statusQueueing,
        if (⟨"j2", "t", "retrying"⟩ : Job).status = statusQueueing then 0 else 1)] :=
  ⟨⟨by decide, by decide⟩,
   recovery_summary_adjustment [⟨"j2", "t", "retrying"⟩] ⟨"j2", "t", "retrying"⟩
     ⟨"j2", "t", "retrying"⟩ (by decide) (by decide)⟩

/-- Observable effects performed by `prepare`, `Serve` and `Shutdown`, one
constructor per side-effecting statement of `task_queue_worker.go`, in the
order the statements execute them. -/
inductive Ev
  | clearQueue (task : String)
  | updateSummaryLoading (task : String)
  | updateJobCall (id : String) (err : Option String)
  | incrementSummary (task : String) (deltas : List (String × Int))
  | pushJob (id : String)
  | registerJob (id : String) (workerIndex : Nat)
  | recalcSummary
  | readySignal
  | refreshSignal
  | logWarn (msg : String)
  | recvReady
  | startDashboard
  | spawnTask (slot : Nat)
  | loopContinue
  | loopExit
  | stopAllJob
  | shutdownSignal
  | setShutdownFlag
  | logWaiting (n : Nat)
  | waitCompletion
  | cancelCtx
  | logStopped
  deriving DecidableEq, Repr

/-- Event classifier: the per-task reset effects of recovery step 1 (queue
clear and `is_loading` summary reset). -/
def isSetupEv : Ev → Bool
  | Ev.clearQueue _ => true
  | Ev.updateSummaryLoading _ => true
  | _ => false

/-- Event classifier: the per-job effects of the recovery stream callback. -/
def isJobEv : Ev → Bool
  | Ev.updateJobCall _ _ => true
  | Ev.incrementSummary _ _ => true
  | Ev.pushJob _ => true
  | Ev.registerJob _ _ => true
  | _ => false

/-- Event classifier: log emissions. -/
def isLogEv : Ev → Bool
  | Ev.logWarn _ => true
  | Ev.logWaiting _ => true
  | Ev.logStopped => true
  | _ => false

/-- Whether a trace contains any log emission. -/
def hasLogEv (t : List Ev) : Bool :=
  t.any isLogEv

/-- One job delivered by `StreamAllJob` together with the response of the
Job Store to the status update the callback issues for it: the
`(matched, affected, err)` triple returned by `persistent.UpdateJob`.  The
error component is bound to the blank identifier by the Go code. -/
structure StreamedJob where
  job : Job
  matched : Int
  affected : Int
  updErr : Option String
  deriving DecidableEq, Repr

/-- Trace of one iteration of the recovery stream callback
(`task_queue_worker.go` lines 92-109): for a job not already `queueing`,
call `UpdateJob` (whose error return is discarded) and `IncrementSummary`
with `{statusBefore: -matched, queueing: affected}`; in every case push the
job back to the Queue Adapter and register it to its task's dispatch slot
(`registeredTask[job.TaskName].workerIndex`, embodied by `widx`). -/
def prepareJobEvents (widx : String → Nat) (sj : StreamedJob) : List Ev :=
  (if sj.job.status ≠ statusQueueing then
    [Ev.updateJobCall sj.job.id sj.updErr,
     Ev.incrementSummary sj.job.taskName
       [(sj.job.status, -sj.matched), (statusQueueing, sj.affected)]]
   else []) ++
  [Ev.pushJob sj.job.id, Ev.registerJob sj.job.id (widx sj.job.taskName)]

/-- Trace of the whole `StreamAllJob` pass: the callback runs for every
streamed job in order; nothing it observes (in particular no Job Store
error) makes it abort the stream. -/
def prepareStreamEvents (widx : String → Nat) (sjs : List StreamedJob) :
    List Ev :=
  (sjs.map (prepareJobEvents widx)).flatten

/-- Trace of `prepare` (`task_queue_worker.go` lines 73-114): with no task
registered, log a warning and signal ready; otherwise clear every task's
queue and reset its `is_loading` flag, replay the pending-job stream,
recompute all summaries, signal ready, and wake the dispatch loop once via
the refresh channel. -/
def prepareEvents (tasks : List String) (widx : String → Nat)
    (sjs : List StreamedJob) : List Ev :=
  match tasks with
  | [] => [Ev.logWarn "Task Queue Worker: warning, no task provided", Ev.readySignal]
  | _ :: _ =>
    (tasks.map (fun t => [Ev.clearQueue t, Ev.updateSummaryLoading t])).flatten ++
    prepareStreamEvents widx sjs ++
    [Ev.recalcSummary, Ev.readySignal, Ev.refreshSignal]

/-- Outcome of one iteration of `Serve`'s dispatch loop. -/
inductive LoopAction
  | exit
  | continueNoWork
  | spawn (slot : Nat)
  deriving DecidableEq, Repr

/-- One iteration of the dispatch loop body (`task_queue_worker.go` lines
124-142) as a function of what the iteration observes: whether the
non-blocking receive on the `shutdown` channel fires, and the
`(chosen, ok)` result of `reflect.Select(workers)`.  Index 0 is the
administrative refresh channel and performs no task work; any other index
spawns `go t.triggerTask(chosen)`. -/
def serveStep (shutdownReady : Bool) (chosen : Nat) (recvOK : Bool) :
    LoopAction :=
  if shutdownReady then LoopAction.exit
  else if !recvOK then LoopAction.continueNoWork
  else if chosen = 0 then LoopAction.continueNoWork
  else LoopAction.spawn chosen

/-- The dispatch loop run over a finite schedule of per-iteration
observations: it stops only when an iteration exits, and otherwise keeps
consuming observations (the loop itself never blocks on job execution). -/
def serveLoop : List (Bool × Nat × Bool) → List LoopAction
  | [] => []
  | (sd, ch, ok) :: rest =>
    match serveStep sd ch ok with
    | LoopAction.exit => [LoopAction.exit]
    | a => a :: serveLoop rest

/-- Rendering of a loop action as a trace event. -/
def loopActionEv : LoopAction → Ev
  | LoopAction.exit => Ev.loopExit
  | LoopAction.continueNoWork => Ev.loopContinue
  | LoopAction.spawn n => Ev.spawnTask n

/-- Trace of `Serve` (`task_queue_worker.go` lines 116-143): it first
blocks receiving on the `ready` channel, then starts the dashboard API,
then enters the dispatch loop. -/
def serveTrace (obs : List (Bool × Nat × Bool)) : List Ev :=
  Ev.recvReady :: Ev.startDashboard :: (serveLoop obs).map loopActionEv

theorem isJobEv_of_mem_prepareJobEvents (widx : String → Nat)
    (sj : StreamedJob) : ∀ e ∈ prepareJobEvents widx sj, isJobEv e = true := by
  intro e he
  unfold prepareJobEvents at he
  by_cases hc : sj.job.status ≠ statusQueueing
  · simp [hc] at he
    rcases he with rfl | rfl | rfl | rfl <;> rfl
  · simp [hc] at he
    rcases he with rfl | rfl <;> rfl

theorem isLogEv_eq_false_of_isJobEv (e : Ev) (h : isJobEv e = true) :
    isLogEv e = false := by
  cases e <;> simp [isJobEv] at h <;> rfl

theorem isJobEv_of_mem_prepareStreamEvents (widx : String → Nat)
    (sjs : List StreamedJob) :
    ∀ e ∈ prepareStreamEvents widx sjs, isJobEv e = true := by
  intro e he
  unfold prepareStreamEvents at he
  rw [List.mem_flatten] at he
  obtain ⟨l, hl, hel⟩ := he
  rw [List.mem_map] at hl
  obtain ⟨sj, _, rfl⟩ := hl
  exact isJobEv_of_mem_prepareJobEvents widx sj e hel

/-- Claim C5: recovery runs to completion before the dispatch loop accepts
work, in order.  The trace of `prepare` with at least one registered task
decomposes as per-task resets (queue clear and `is_loading` reset), then
the stream-and-replay of pending jobs, then the full summary recount, then
the ready signal, then exactly one refresh wake — and the refresh signal
occurs exactly once in the whole trace.  `Serve`'s trace begins with the
blocking receive on the ready channel, before any loop iteration. -/
theorem recovery_before_dispatch (tasks : List String) (widx : String → Nat)
    (sjs : List StreamedJob) (obs : List (Bool × Nat × Bool))
    (h : tasks ≠ []) :
    (∃ A B, prepareEvents tasks widx sjs
        = A ++ B ++ [Ev.recalcSummary, Ev.readySignal, Ev.refreshSignal] ∧
      (∀ e ∈ A, isSetupEv e = true) ∧
      (∀ t ∈ tasks, Ev.clearQueue t ∈ A) ∧
      (∀ e ∈ B, isJobEv e = true)) ∧
    (prepareEvents tasks widx sjs).count Ev.refreshSignal = 1 ∧
    (serveTrace obs).head? = some Ev.recvReady := by
  obtain ⟨t0, rest, rfl⟩ := List.exists_cons_of_ne_nil h
  have hA : ∀ e ∈ ((t0 :: rest).map
      (fun t => [Ev.clearQueue t, Ev.updateSummaryLoading t])).flatten,
      isSetupEv e = true := by
    intro e he
    rw [List.mem_flatten] at he
    obtain ⟨l, hl, hel⟩ := he
    rw [List.mem_map] at hl
    obtain ⟨t, _, rfl⟩ := hl
    simp at hel
    rcases hel with rfl | rfl <;> rfl
  have hB := isJobEv_of_mem_prepareStreamEvents widx sjs
  have htrace : prepareEvents (t0 :: rest) widx sjs
      = ((t0 :: rest).map
          (fun t => [Ev.clearQueue t, Ev.updateSummaryLoading t])).flatten
        ++ prepareStreamEvents widx sjs
        ++ [Ev.recalcSummary, Ev.readySignal, Ev.refreshSignal] := rfl
  refine ⟨⟨_, _, htrace, hA, ?_, hB⟩, ?_, rfl⟩
  · intro t ht
    rw [List.mem_flatten]
    exact ⟨[Ev.clearQueue t, Ev.updateSummaryLoading t],
      List.mem_map_of_mem _ ht, by simp⟩
  · rw [htrace]
    rw [List.count_append, List.count_append]
    have hcA : List.count Ev.refreshSignal (((t0 :: rest).map
        (fun t => [Ev.clearQueue t, Ev.updateSummaryLoading t])).flatten) = 0 := by
      rw [List.count_eq_zero]
      intro hmem
      have := hA _ hmem
      simp [isSetupEv] at this
    have hcB : List.count Ev.refreshSignal (prepareStreamEvents widx sjs) = 0 := by
      rw [List.count_eq_zero]
      intro hmem
      have := hB _ hmem
      simp [isJobEv] at this
    rw [hcA, hcB]
    rfl

theorem recovery_before_dispatch_witness :
    ((["t1"] : List String) ≠ []) ∧
    ((∃ A B, prepareEvents ["t1"] (fun _ => 1) []
        = A ++ B ++ [Ev.recalcSummary, Ev.readySignal, Ev.refreshSignal] ∧
      (∀ e ∈ A, isSetupEv e = true) ∧
      (∀ t ∈ (["t1"] : List String), Ev.clearQueue t ∈ A) ∧
      (∀ e ∈ B, isJobEv e = true)) ∧
    (prepareEvents ["t1"] (fun _ => 1) []).count Ev.refreshSignal = 1 ∧
    (serveTrace []).head? = some Ev.recvReady) :=
  ⟨by decide, recovery_before_dispatch ["t1"] (fun _ => 1) [] [] (by decide)⟩

/-- Schedule of streamed jobs for the C6 scenario: job `"j1"`'s status
update fails in the Job Store, job `"j2"` follows it in the stream. -/
def errJobs : List StreamedJob :=
  [⟨⟨"j1", "t", "retrying"⟩, 1, 1, some "db error"⟩,
   ⟨⟨"j2", "t", "queueing"⟩, 0, 0, none⟩]

/-- Dispatch-slot lookup for the C6 scenario (task `"t"` holds slot 1). -/
def errWidx : String → Nat := fun _ => 1

/-- Claim C6, counterexample: the Job Store error is swallowed silently,
not "with a log" — in the concrete recovery pass where `"j1"`'s update
errs, the trace records the erring update call, still pushes both `"j1"`
and the subsequent `"j2"`, and contains no log emission at all. -/
theorem recovery_error_log_cex :
    Ev.updateJobCall "j1" (some "db error") ∈ prepareEvents ["t"] errWidx errJobs ∧
    Ev.pushJob "j1" ∈ prepareEvents ["t"] errWidx errJobs ∧
    Ev.pushJob "j2" ∈ prepareEvents ["t"] errWidx errJobs ∧
    hasLogEv (prepareEvents ["t"] errWidx errJobs) = false := by
  decide

/-- Claim C6 (amended): a Job Store error returned by the per-job status
update is discarded silently (no log): recovery does not abort, continues
to the remaining jobs of the stream, and every streamed job — the one whose
update erred included — is still pushed to the Queue Adapter and registered
to its dispatch slot, so it is retried on a later pass. -/
theorem recovery_update_error_swallowed (widx : String → Nat)
    (sjs : List StreamedJob) (sj : StreamedJob) (h : sj ∈ sjs) :
    Ev.pushJob sj.job.id ∈ prepareStreamEvents widx sjs ∧
    Ev.registerJob sj.job.id (widx sj.job.taskName)
      ∈ prepareStreamEvents widx sjs ∧
    hasLogEv (prepareStreamEvents widx sjs) = false := by
  have hmem : ∀ e ∈ ([Ev.pushJob sj.job.id,
      Ev.registerJob sj.job.id (widx sj.job.taskName)] : List Ev),
      e ∈ prepareStreamEvents widx sjs := by
    intro e he
    unfold prepareStreamEvents
    rw [List.mem_flatten]
    refine ⟨prepareJobEvents widx sj, List.mem_map_of_mem _ h, ?_⟩
    unfold prepareJobEvents
    rw [List.mem_append]
    exact Or.inr he
  refine ⟨hmem _ (by simp), hmem _ (by simp), ?_⟩
  unfold hasLogEv
  rw [List.any_eq_false]
  intro e he
  rw [isLogEv_eq_false_of_isJobEv e
    (isJobEv_of_mem_prepareStreamEvents widx sjs e he)]
  simp

theorem recovery_update_error_swallowed_witness :
    ((⟨⟨"j1", "t", "retrying"⟩, 1, 1, some "db error"⟩ : StreamedJob) ∈ errJobs) ∧
    (Ev.pushJob (⟨⟨"j1", "t", "retrying"⟩, 1, 1, some "db error"⟩ : StreamedJob).job.id
        ∈ prepareStreamEvents errWidx errJobs ∧
     Ev.registerJob
        (⟨⟨"j1", "t", "retrying"⟩, 1, 1, some "db error"⟩ : StreamedJob).job.id
        (errWidx (⟨⟨"j1", "t", "retrying"⟩, 1, 1, some "db error"⟩ : StreamedJob).job.taskName)
       ∈ prepareStreamEvents errWidx errJobs ∧
     hasLogEv (prepareStreamEvents errWidx errJobs) = false) :=
  ⟨by decide,
   recovery_update_error_swallowed errWidx errJobs
     ⟨⟨"j1", "t", "retrying"⟩, 1, 1, some "db error"⟩ (by decide)⟩

/-- Claim C7: in every iteration of the dispatch loop, the shutdown check
comes first and exits the loop when set; a wait that returns the
administrative refresh source (index 0) performs no task work and the loop
iterates again; a wait that returns a task's wake signal spawns that
slot's asynchronous execution and the loop immediately continues with the
next wait (it never blocks on the spawned execution); a closed-channel
wake likewise just iterates. -/
theorem dispatch_loop_behaviour (sd : Bool) (ch : Nat) (ok : Bool)
    (rest : List (Bool × Nat × Bool)) :
    (sd = true → serveLoop ((sd, ch, ok) :: rest) = [LoopAction.exit]) ∧
    (sd = false → ok = true → ch ≠ 0 →
       serveLoop ((sd, ch, ok) :: rest) = LoopAction.spawn ch :: serveLoop rest) ∧
    (sd = false → ch = 0 →
       serveLoop ((sd, ch, ok) :: rest) = LoopAction.continueNoWork :: serveLoop rest) ∧
    (sd = false → ok = false →
       serveLoop ((sd, ch, ok) :: rest) = LoopAction.continueNoWork :: serveLoop rest) := by
  refine ⟨?_, ?_, ?_, ?_⟩
  · intro hsd
    subst hsd
    rw [serveLoop]
    rfl
  · intro hsd hok hch
    subst hsd
    subst hok
    rw [serveLoop]
    simp [serveStep, hch]
  · intro hsd hch
    subst hsd
    subst hch
    rw [serveLoop]
    cases ok <;> rfl
  · intro hsd hok
    subst hsd
    subst hok
    rw [serveLoop]
    rfl

theorem dispatch_loop_behaviour_witness :
    serveLoop [(false, 2, true), (false, 0, true), (true, 0, true)]
      = [LoopAction.spawn 2, LoopAction.continueNoWork, LoopAction.exit] := by
  have h1 := (dispatch_loop_behaviour false 2 true
    [(false, 0, true), (true, 0, true)]).2.1 rfl rfl (by decide)
  have h2 := (dispatch_loop_behaviour false 0 true [(true, 0, true)]).2.2.1 rfl rfl
  have h3 := (dispatch_loop_behaviour true 0 true []).1 rfl
  rw [h1, h2, h3]

/-- Event classifier: everything `Shutdown` does strictly before blocking
on the completion counter (`wg.Wait()`). -/
def isPreDrainEv : Ev → Bool
  | Ev.clearQueue _ => true
  | Ev.stopAllJob => true
  | Ev.shutdownSignal => true
  | Ev.setShutdownFlag => true
  | Ev.logWaiting _ => true
  | _ => false

/-- Trace of `Shutdown` (`task_queue_worker.go` lines 145-168): with no
registered task it returns at once (only the deferred success log runs);
otherwise it clears every task's queue, stops all jobs, sends the shutdown
signal, sets the shutdown flag, reports the number of still-admitted jobs
(the sum of the semaphore channel occupancies `sems`) when nonzero, blocks
on the completion counter, and only then releases the process-scoped
cancellation context; the deferred success log runs last. -/
def shutdownEvents (s : WorkerState) (sems : List Nat) : List Ev :=
  match s.registeredTask with
  | [] => [Ev.logStopped]
  | _ :: _ =>
    (s.tasks.map Ev.clearQueue) ++
    [Ev.stopAllJob, Ev.shutdownSignal, Ev.setShutdownFlag] ++
    (if sems.sum ≠ 0 then [Ev.logWaiting sems.sum] else []) ++
    [Ev.waitCompletion, Ev.cancelCtx, Ev.logStopped]

theorem isPreDrainEv_of_mem_shutdown_head (s : WorkerState) (sems : List Nat) :
    ∀ e ∈ (s.tasks.map Ev.clearQueue) ++
        [Ev.stopAllJob, Ev.shutdownSignal, Ev.setShutdownFlag] ++
        (if sems.sum ≠ 0 then [Ev.logWaiting sems.sum] else []),
      isPreDrainEv e = true := by
  intro e he
  rw [List.mem_append] at he
  rcases he with he | he
  · rw [List.mem_append] at he
    rcases he with he | he
    · rw [List.mem_map] at he
      obtain ⟨t, _, rfl⟩ := he
      rfl
    · simp at he
      rcases he with rfl | rfl | rfl <;> rfl
  · by_cases hz : sems.sum ≠ 0
    · rw [if_pos hz] at he
      simp at he
      subst he
      rfl
    · rw [if_neg hz] at he
      simp at he

/-- Claim C4: with at least one registered task, `Shutdown` clears every
registered task's pending queue entries, the cancellation context is
released, and the release happens strictly after the block on the
completion counter: any position of the trace holding the context release
is preceded by a position holding the completion wait. -/
theorem shutdown_drains_before_cancel (s : WorkerState) (sems : List Nat)
    (hne : s.registeredTask ≠ [])
    (hwf : ∀ p ∈ s.registeredTask, p.1 ∈ s.tasks) :
    (∀ p ∈ s.registeredTask, Ev.clearQueue p.1 ∈ shutdownEvents s sems) ∧
    Ev.cancelCtx ∈ shutdownEvents s sems ∧
    (∀ j : Nat, (shutdownEvents s sems)[j]? = some Ev.cancelCtx →
       ∃ i, i < j ∧ (shutdownEvents s sems)[i]? = some Ev.waitCompletion) := by
  obtain ⟨p0, prest, hreg⟩ := List.exists_cons_of_ne_nil hne
  have htrace : shutdownEvents s sems =
      ((s.tasks.map Ev.clearQueue) ++
        [Ev.stopAllJob, Ev.shutdownSignal, Ev.setShutdownFlag] ++
        (if sems.sum ≠ 0 then [Ev.logWaiting sems.sum] else [])) ++
      [Ev.waitCompletion, Ev.cancelCtx, Ev.logStopped] := by
    unfold shutdownEvents
    rw [hreg]
  set P := (s.tasks.map Ev.clearQueue) ++
      [Ev.stopAllJob, Ev.shutdownSignal, Ev.setShutdownFlag] ++
      (if sems.sum ≠ 0 then [Ev.logWaiting sems.sum] else []) with hP
  refine ⟨?_, ?_, ?_⟩
  · intro p hp
    rw [htrace, List.mem_append]
    left
    rw [hP, List.mem_append]
    left
    rw [List.mem_append]
    left
    exact List.mem_map_of_mem _ (hwf p hp)
  · rw [htrace, List.mem_append]
    right
    simp
  · intro j hj
    have hnotP : Ev.cancelCtx ∉ P := by
      intro hmem
      have := isPreDrainEv_of_mem_shutdown_head s sems _ hmem
      simp [isPreDrainEv] at this
    have hjlarge : P.length < j := by
      rcases Nat.lt_trichotomy j P.length with hlt | heq | hgt
      · exfalso
        rw [htrace, List.getElem?_append_left hlt] at hj
        exact hnotP (List.getElem?_mem hj)
      · exfalso
        rw [htrace, List.getElem?_append_right (Nat.le_of_eq heq.symm), heq] at hj
        simp at hj
      · exact hgt
    refine ⟨P.length, hjlarge, ?_⟩
    rw [htrace, List.getElem?_append_right (Nat.le_refl _)]
    simp

theorem shutdown_drains_before_cancel_witness :
    ((newTaskQueueWorkerReg "m" ["a", "b"]).1.registeredTask ≠ [] ∧
     (∀ p ∈ (newTaskQueueWorkerReg "m" ["a", "b"]).1.registeredTask,
        p.1 ∈ (newTaskQueueWorkerReg "m" ["a", "b"]).1.tasks)) ∧
    ((∀ p ∈ (newTaskQueueWorkerReg "m" ["a", "b"]).1.registeredTask,
        Ev.clearQueue p.1
          ∈ shutdownEvents (newTaskQueueWorkerReg "m" ["a", "b"]).1 [1, 0]) ∧
     Ev.cancelCtx ∈ shutdownEvents (newTaskQueueWorkerReg "m" ["a", "b"]).1 [1, 0] ∧
     (∀ j : Nat, (shutdownEvents (newTaskQueueWorkerReg "m" ["a", "b"]).1 [1, 0])[j]?
          = some Ev.cancelCtx →
        ∃ i, i < j ∧
          (shutdownEvents (newTaskQueueWorkerReg "m" ["a", "b"]).1 [1, 0])[i]?
            = some Ev.waitCompletion)) :=
  ⟨⟨by decide, by decide⟩,
   shutdown_drains_before_cancel (newTaskQueueWorkerReg "m" ["a", "b"]).1 [1, 0]
     (by decide) (by decide)⟩

/-- Claim C9: with zero registered tasks, `Shutdown` performs nothing but
the deferred success log: no queue is cleared, the shutdown signal is not
sent, the completion counter is not awaited, and the process-lifetime
cancel function is never called, so the engine's lifetime context stays
uncancelled. -/
theorem shutdown_noop_when_no_tasks (s : WorkerState) (sems : List Nat)
    (h : s.registeredTask = []) :
    shutdownEvents s sems = [Ev.logStopped] ∧
    Ev.cancelCtx ∉ shutdownEvents s sems ∧
    Ev.shutdownSignal ∉ shutdownEvents s sems ∧
    Ev.waitCompletion ∉ shutdownEvents s sems ∧
    ∀ t, Ev.clearQueue t ∉ shutdownEvents s sems := by
  have htrace : shutdownEvents s sems = [Ev.logStopped] := by
    unfold shutdownEvents
    rw [h]
  refine ⟨htrace, ?_, ?_, ?_, ?_⟩ <;> rw [htrace] <;> simp

theorem shutdown_noop_when_no_tasks_witness :
    initialState.registeredTask = [] ∧
    (shutdownEvents initialState [] = [Ev.logStopped] ∧
     Ev.cancelCtx ∉ shutdownEvents initialState [] ∧
     Ev.shutdownSignal ∉ shutdownEvents initialState [] ∧
     Ev.waitCompletion ∉ shutdownEvents initialState [] ∧
     ∀ t, Ev.clearQueue t ∉ shutdownEvents initialState []) :=
  ⟨rfl, shutdown_noop_when_no_tasks initialState [] rfl⟩

/-- Opaque token standing for a `QueueStorage` implementation value. -/
structure QueueStorage where
  token : Nat

/-- Opaque token standing for a `Persistent` implementation value. -/
structure Persistent where
  token : Nat

/-- Opaque token standing for a `candiutils.Locker` implementation value. -/
structure Locker where
  token : Nat

/-- The `option` struct of the task-queue-worker package (option file lines
9-28).  `time.Duration` is embedded as `Int` (nanoseconds), `uint16` as
`Nat`; the claims never compute with these fields. -/
structure option where
  queue : QueueStorage
  persistent : Persistent
  tracingDashboard : String
  maxClientSubscriber : Int
  autoRemoveClientInterval : Int
  dashboardBanner : String
  dashboardPort : Nat
  debugMode : Bool
  locker : Locker
  maxConcurrentAddJob : Int
  externalWorkerHost : String

/-- The package-level mutable state the option constructors can touch: the
`defaultOption` variable. -/
structure GlobalOpts where
  defaultOption : option

/-- Each Go `Set*` constructor is a function that, when CALLED, may act on
the package globals and returns the `OptionFunc` closure to be applied
later; the embedding makes both effects explicit: the first component is
the state of the globals immediately after the call, the second the
returned closure. -/
def SetQueue (q : QueueStorage) (g : GlobalOpts) :
    GlobalOpts × (option → option) :=
  (g, fun o => { o with queue := q })

/-- Constructor `SetPersistent` (option file lines 37-42). -/
def SetPersistent (p : Persistent) (g : GlobalOpts) :
    GlobalOpts × (option → option) :=
  (g, fun o => { o with persistent := p })

/-- Constructor `SetTracingDashboard` (option file lines 44-49). -/
def SetTracingDashboard (host : String) (g : GlobalOpts) :
    GlobalOpts × (option → option) :=
  (g, fun o => { o with tracingDashboard := host })

/-- Constructor `SetMaxClientSubscriber` (option file lines 51-56). -/
def SetMaxClientSubscriber (m : Int) (g : GlobalOpts) :
    GlobalOpts × (option → option) :=
  (g, fun o => { o with maxClientSubscriber := m })

/-- Constructor `SetAutoRemoveClientInterval` (option file lines 58-63). -/
def SetAutoRemoveClientInterval (d : Int) (g : GlobalOpts) :
    GlobalOpts × (option → option) :=
  (g, fun o => { o with autoRemoveClientInterval := d })

/-- Constructor `SetDashboardBanner` (option file lines 65-70). -/
def SetDashboardBanner (banner : String) (g : GlobalOpts) :
    GlobalOpts × (option → option) :=
  (g, fun o => { o with dashboardBanner := banner })

/-- Constructor `SetDashboardHTTPPort` (option file lines 72-77). -/
def SetDashboardHTTPPort (port : Nat) (g : GlobalOpts) :
    GlobalOpts × (option → option) :=
  (g, fun o => { o with dashboardPort := port })

/-- Constructor `SetDebugMode` (option file lines 79-84). -/
def SetDebugMode (dm : Bool) (g : GlobalOpts) :
    GlobalOpts × (option → option) :=
  (g, fun o => { o with debugMode := dm })

/-- Constructor `SetLocker` (option file lines 86-91). -/
def SetLocker (lk : Locker) (g : GlobalOpts) :
    GlobalOpts × (option → option) :=
  (g, fun o => { o with locker := lk })

/-- Constructor `SetMaxConcurrentAddJob` (option file lines 93-98). -/
def SetMaxConcurrentAddJob (m : Int) (g : GlobalOpts) :
    GlobalOpts × (option → option) :=
  (g, fun o => { o with maxConcurrentAddJob := m })

/-- Constructor `SetExternalWorkerHost` (option file lines 100-106): unlike
all the other constructors, its body assigns
`defaultOption.externalWorkerHost = host` before returning the closure, so
the global default option is mutated at call time. -/
def SetExternalWorkerHost (host : String) (g : GlobalOpts) :
    GlobalOpts × (option → option) :=
  ({ g with defaultOption := { g.defaultOption with externalWorkerHost := host } },
   fun o => { o with externalWorkerHost := host })

/-- Claim C10: calling `SetExternalWorkerHost` writes the global default
option's `externalWorkerHost` field immediately, before its returned
`OptionFunc` is ever applied, while calling any of the other ten `Set*`
constructors leaves the global state untouched (their only effect lives in
the returned closure). -/
theorem set_external_worker_host_immediate (host : String) (g : GlobalOpts)
    (q : QueueStorage) (p : Persistent) (td : String) (mcs : Int) (ar : Int)
    (banner : String) (port : Nat) (dm : Bool) (lk : Locker) (mca : Int) :
    (SetExternalWorkerHost host g).1.defaultOption.externalWorkerHost = host ∧
    (SetQueue q g).1 = g ∧
    (SetPersistent p g).1 = g ∧
    (SetTracingDashboard td g).1 = g ∧
    (SetMaxClientSubscriber mcs g).1 = g ∧
    (SetAutoRemoveClientInterval ar g).1 = g ∧
    (SetDashboardBanner banner g).1 = g ∧
    (SetDashboardHTTPPort port g).1 = g ∧
    (SetDebugMode dm g).1 = g ∧
    (SetLocker lk g).1 = g ∧
    (SetMaxConcurrentAddJob mca g).1 = g :=
  ⟨rfl, rfl, rfl, rfl, rfl, rfl, rfl, rfl, rfl, rfl, rfl⟩

end TaskQueueWorker
